import Mathlib

/-!
Verification development for the `bus` message-bus core.

The handler registry (`DefaultHandlerRegistry` in the source) is embedded
directly from the source file.  The service-bus lifecycle, hooks and the
concurrency-bounded dispatcher are present in the repository only through
their integration tests, so those parts are modelled from the spec; each
such definition carries a doc comment starting `Modelled from the spec:`.

JavaScript reference identity (`===`) on handler functions and message
constructors is embedded by giving each a numeric identity: two distinct
function objects receive distinct ids.  A JavaScript object used as a
string-keyed map is embedded as an association list in key-insertion
order, matching `Object.keys` enumeration order for string keys.
-/

/-- A message class constructor (`ClassConstructor<Message>`).  `name` is the
`$name` carried by its instances (read by `new messageType().$name`). -/
structure MessageType where
  ctorId : Nat
  name : String
deriving DecidableEq

/-- A handler function.  `id` stands for JavaScript reference identity;
`name` is the function's `name` property (used in the duplicate error). -/
structure Handler where
  id : Nat
  name : String
deriving DecidableEq

/-- Source `interface RegisteredHandlers`: the constructor plus the ordered
list of handlers registered under one message name. -/
structure RegisteredHandlers where
  messageType : MessageType
  handlers : List Handler
deriving DecidableEq

/-- Source `HandlerRegistrations` object plus the `unhandledMessages` array:
the private state of `DefaultHandlerRegistry`. -/
structure HandlerRegistry where
  registry : List (String × RegisteredHandlers)
  unhandledMessages : List String
deriving DecidableEq

/-- The error thrown by `register` on a duplicate handler
(`throw new HandlerAlreadyRegistered(handler.name)`). -/
inductive RegistryError where
  | handlerAlreadyRegistered (handlerName : String)
deriving DecidableEq

/-- Property lookup on the string-keyed registry object
(`this.registry[messageName]`, and the `messageName in this.registry` test). -/
def lookupName (reg : List (String × RegisteredHandlers)) (n : String) :
    Option RegisteredHandlers :=
  match reg with
  | [] => none
  | kv :: rest => if kv.1 = n then some kv.2 else lookupName rest n

/-- Assignment to an existing key of the registry object: the entry keeps its
position, only its value changes. -/
def assignEntry (reg : List (String × RegisteredHandlers)) (n : String)
    (v : RegisteredHandlers) : List (String × RegisteredHandlers) :=
  reg.map fun kv => if kv.1 = n then (kv.1, v) else kv

namespace HandlerRegistry

/-- `DefaultHandlerRegistry.register`, step for step: read the message name
from a fresh instance; create the entry if absent; throw
`HandlerAlreadyRegistered` if this exact handler (reference identity) is
already present; otherwise push the handler.  The returned state reflects
every mutation performed before a throw, as in the source. -/
def register (r : HandlerRegistry) (mt : MessageType) (h : Handler) :
    HandlerRegistry × Option RegistryError :=
  let messageName := mt.name
  let registry1 :=
    match lookupName r.registry messageName with
    | none => r.registry ++ [(messageName, RegisteredHandlers.mk mt [])]
    | some _ => r.registry
  match lookupName registry1 messageName with
  | none => ({ r with registry := registry1 }, none)
  | some entry =>
    if h ∈ entry.handlers then
      ({ r with registry := registry1 },
        some (RegistryError.handlerAlreadyRegistered h.name))
    else
      let pushed :=
        assignEntry registry1 messageName
          (RegisteredHandlers.mk entry.messageType (entry.handlers ++ [h]))
      ({ r with registry := pushed }, none)

/-- `DefaultHandlerRegistry.get`: returns the handler list, the registry
state after the call, and whether the one-time unhandled-message diagnostic
was emitted by this call. -/
def get (r : HandlerRegistry) (messageName : String) :
    List Handler × HandlerRegistry × Bool :=
  match lookupName r.registry messageName with
  | none =>
    if messageName ∈ r.unhandledMessages then
      ([], r, false)
    else
      ([], { r with
              unhandledMessages := r.unhandledMessages ++ [messageName] },
        true)
  | some entry => (entry.handlers, r, false)

/-- `DefaultHandlerRegistry.getMessageNames`: `Object.keys(this.registry)`. -/
def getMessageNames (r : HandlerRegistry) : List String :=
  r.registry.map Prod.fst

/-- `DefaultHandlerRegistry.getMessageConstructor`. -/
def getMessageConstructor (r : HandlerRegistry) (messageName : String) :
    Option MessageType :=
  (lookupName r.registry messageName).map RegisteredHandlers.messageType

/-- `DefaultHandlerRegistry.reset`: `this.registry = {}` — the
`unhandledMessages` array is not touched. -/
def reset (r : HandlerRegistry) : HandlerRegistry :=
  { r with registry := [] }

end HandlerRegistry

/-- The freshly constructed singleton `new DefaultHandlerRegistry()`. -/
def handlerRegistryInit : HandlerRegistry :=
  HandlerRegistry.mk [] []

/-- The handler list `get` would return for a name, used to phrase the
registration-order theorems. -/
def handlersFor (r : HandlerRegistry) (n : String) : List Handler :=
  match lookupName r.registry n with
  | none => []
  | some entry => entry.handlers

/-- `n` repeated `get` lookups for the same name, threading the registry
state and counting how many of the calls emitted the unhandled-message
diagnostic. -/
def getRepeat (r : HandlerRegistry) (name : String) : Nat → HandlerRegistry × Nat
  | 0 => (r, 0)
  | n + 1 =>
    let step := HandlerRegistry.get r name
    let rest := getRepeat step.2.1 name n
    (rest.1, (if step.2.2 then 1 else 0) + rest.2)

/-! ## Service-bus lifecycle (spec-modelled) -/

/-- Modelled from the spec: the `BusState` enumeration of `service-bus.ts`
(absent from the sources; only its integration tests are present):
{Stopped, Starting, Started, Stopping}. -/
inductive BusState where
  | stopped
  | starting
  | started
  | stopping
deriving DecidableEq

/-- Error message used by the lifecycle model for an invalid `start()`. -/
def startErrorMsg : String := "ServiceBus must be stopped before it can be started"

/-- Error message used by the lifecycle model for an invalid `stop()`. -/
def stopErrorMsg : String := "ServiceBus must be started before it can be stopped"

/-- Modelled from the spec: `ServiceBus.start()` (implementation absent from
the sources).  Valid only from Stopped, where it runs
Stopped → Starting → Started to completion; from Starting, Started or
Stopping it fails fatally instead of being a no-op. -/
def startBus : BusState → Except String BusState
  | BusState.stopped => Except.ok BusState.started
  | _ => Except.error startErrorMsg

/-- Modelled from the spec: `ServiceBus.stop()` (implementation absent from
the sources).  Valid only from Started, where it runs
Started → Stopping → Stopped to completion; otherwise it fails. -/
def stopBus : BusState → Except String BusState
  | BusState.started => Except.ok BusState.stopped
  | _ => Except.error stopErrorMsg

/-! ## Send/publish hooks (spec-modelled) -/

/-- The two hook event names. -/
inductive HookEvent where
  | send
  | publish
deriving DecidableEq

/-- Modelled from the spec: the service bus's hook registrations — one
listener collection per event name (`on`/`off` of `service-bus.ts`, absent
from the sources).  Listeners carry reference identity as a `Nat`. -/
structure HookRegistrations where
  sendListeners : List Nat
  publishListeners : List Nat
deriving DecidableEq

/-- Modelled from the spec: `bus.on(eventName, listener)` adds a listener
for the event. -/
def hookOn : HookEvent → HookRegistrations → Nat → HookRegistrations
  | HookEvent.send, hk, l => { hk with sendListeners := hk.sendListeners ++ [l] }
  | HookEvent.publish, hk, l =>
    { hk with publishListeners := hk.publishListeners ++ [l] }

/-- Modelled from the spec: `bus.off(eventName, listener)` removes the
listener; removing a listener that is not registered is a no-op. -/
def hookOff : HookEvent → HookRegistrations → Nat → HookRegistrations
  | HookEvent.send, hk, l =>
    { hk with sendListeners := hk.sendListeners.filter (fun x => x ≠ l) }
  | HookEvent.publish, hk, l =>
    { hk with publishListeners := hk.publishListeners.filter (fun x => x ≠ l) }

/-- Modelled from the spec: the listeners `send()` notifies, snapshotted at
fire time; the resulting list is the invocation trace of one `send()` call
(each element is one listener invocation). -/
def fireSend (hk : HookRegistrations) : List Nat :=
  hk.sendListeners

/-- Modelled from the spec: the listeners `publish()` notifies, snapshotted
at fire time, as the invocation trace of one `publish()` call. -/
def firePublish (hk : HookRegistrations) : List Nat :=
  hk.publishListeners

/-! ## Dispatcher: handler execution and success/failure resolution
(spec-modelled) -/

/-- The dispatcher's resolution of one claimed message back to the
transport. -/
inductive Resolved where
  | deleteMsg
  | retryMsg
deriving DecidableEq

/-- Modelled from the spec: the dispatcher slot invokes each matched handler
in registration order; `outcome h = true` means handler `h` completes
without raising (a synchronous throw and a rejected asynchronous result
both count as `false`).  Returns the invocation trace and whether all
handlers completed without raising. -/
def runHandlers (outcome : Handler → Bool) : List Handler → List Handler × Bool
  | [] => ([], true)
  | h :: rest =>
    let r := runHandlers outcome rest
    (h :: r.1, outcome h && r.2)

/-- Modelled from the spec: the slot's resolution decision — delete the
message when every handler completed, return it for retry when any handler
raised. -/
def resolveMessage (outcome : Handler → Bool) (hs : List Handler) : Resolved :=
  if (runHandlers outcome hs).2 then Resolved.deleteMsg else Resolved.retryMsg

/-- Modelled from the spec: the in-memory transport's pending queue
(`MemoryQueue`, absent from the sources).  `depth` is the pending count. -/
structure MemQueue where
  messages : List Nat
deriving DecidableEq

/-- `MemoryQueue.depth`. -/
def MemQueue.depth (q : MemQueue) : Nat :=
  q.messages.length

/-- Modelled from the spec: applying the slot's resolution to the transport
once message `m` was claimed off the head, leaving `rest` pending: delete
acknowledges and drops it; retry releases it back for redelivery. -/
def applyResolved (m : Nat) (rest : List Nat) : Resolved → MemQueue
  | Resolved.deleteMsg => MemQueue.mk rest
  | Resolved.retryMsg => MemQueue.mk (rest ++ [m])

/-- Modelled from the spec: up to `fuel` claim→execute→resolve cycles by a
single slot.  `ok i` tells whether the handler completes without raising on
its `i`-th invocation (zero-based); the second component counts handler
invocations so far.  Processing stops when the queue is empty. -/
def processSteps (ok : Nat → Bool) : Nat → MemQueue × Nat → MemQueue × Nat
  | 0, s => s
  | fuel + 1, s =>
    match s.1.messages with
    | [] => s
    | m :: rest =>
      let res := if ok s.2 then Resolved.deleteMsg else Resolved.retryMsg
      processSteps ok fuel (applyResolved m rest res, s.2 + 1)

/-! ## Dispatcher: concurrency-bounded worker pool (spec-modelled) -/

/-- Modelled from the spec: the dispatcher's fixed pool of worker slots
(`withConcurrency(N)`; the dispatcher is absent from the sources).  A slot
is `none` when Idle and `some m` while a blocked handler execution for
message `m` is in flight.  `started` counts handler invocations started. -/
structure PoolState where
  slots : List (Option Nat)
  pending : List Nat
  started : Nat
deriving DecidableEq

/-- The number of handler executions currently in flight. -/
def inFlight (s : PoolState) : Nat :=
  s.slots.countP Option.isSome

/-- Modelled from the spec: idle slots claim pending messages — each idle
slot takes the next message off the queue and starts its handler; busy
slots keep running.  Returns the slots, the remaining queue and the updated
started-count. -/
def claimAll : List (Option Nat) → List Nat → Nat →
    List (Option Nat) × List Nat × Nat
  | [], q, st => ([], q, st)
  | slot :: ss, q, st =>
    match slot, q with
    | none, m :: q2 =>
      let r := claimAll ss q2 (st + 1)
      (some m :: r.1, r.2)
    | _, _ =>
      let r := claimAll ss q st
      (slot :: r.1, r.2)

/-- Run the claim step over the whole pool until a quiescent instant. -/
def settle (s : PoolState) : PoolState :=
  let r := claimAll s.slots s.pending s.started
  PoolState.mk r.1 r.2.1 r.2.2

/-- Modelled from the spec: `Bus.publish` enqueues the message on the
transport; the workers then claim whatever they can (the test's
`await sleep` instant). -/
def poolPublish (s : PoolState) (m : Nat) : PoolState :=
  settle { s with pending := s.pending ++ [m] }

/-- Modelled from the spec: externally releasing the blocked handler held
by slot `i` — the handler finishes, the slot resolves and returns to Idle,
then claims the next pending message if any. -/
def releaseSlot (s : PoolState) (i : Nat) : PoolState :=
  settle { s with slots := s.slots.set i none }

/-- The concurrency integration scenario: a bus with budget 2 and three
messages published while every handler blocks. -/
def busAfterThree : PoolState :=
  poolPublish (poolPublish (poolPublish (PoolState.mk [none, none] [] 0) 1) 2) 3

/-! ## Registry lemmas -/

lemma lookupName_nil (n : String) : lookupName [] n = none := rfl

lemma lookupName_cons (kv : String × RegisteredHandlers)
    (rest : List (String × RegisteredHandlers)) (n : String) :
    lookupName (kv :: rest) n
      = if kv.1 = n then some kv.2 else lookupName rest n := rfl

lemma lookupName_append_self (reg : List (String × RegisteredHandlers))
    (n : String) (v : RegisteredHandlers)
    (hnone : lookupName reg n = none) :
    lookupName (reg ++ [(n, v)]) n = some v := by
  induction reg with
  | nil => simp [lookupName_cons]
  | cons kv rest ih =>
    rw [lookupName_cons] at hnone
    rw [List.cons_append, lookupName_cons]
    by_cases hk : kv.1 = n
    · rw [if_pos hk] at hnone; cases hnone
    · rw [if_neg hk] at hnone
      rw [if_neg hk]
      exact ih hnone

lemma lookupName_assignEntry_self (reg : List (String × RegisteredHandlers))
    (n : String) (v e : RegisteredHandlers)
    (hsome : lookupName reg n = some e) :
    lookupName (assignEntry reg n v) n = some v := by
  induction reg with
  | nil => cases hsome
  | cons kv rest ih =>
    rw [lookupName_cons] at hsome
    by_cases hk : kv.1 = n
    · simp [assignEntry, lookupName_cons, hk]
    · rw [if_neg hk] at hsome
      simp only [assignEntry, List.map_cons, if_neg hk]
      rw [lookupName_cons, if_neg hk]
      exact ih hsome

lemma register_eq_of_lookup_none (r : HandlerRegistry) (mt : MessageType)
    (h : Handler) (hl : lookupName r.registry mt.name = none) :
    HandlerRegistry.register r mt h =
      (HandlerRegistry.mk
        (assignEntry (r.registry ++ [(mt.name, RegisteredHandlers.mk mt [])])
          mt.name (RegisteredHandlers.mk mt [h]))
        r.unhandledMessages, none) := by
  unfold HandlerRegistry.register
  simp only [hl, lookupName_append_self r.registry mt.name _ hl,
    List.not_mem_nil, if_false, List.nil_append]

lemma register_eq_of_mem (r : HandlerRegistry) (mt : MessageType)
    (h : Handler) (entry : RegisteredHandlers)
    (hl : lookupName r.registry mt.name = some entry)
    (hm : h ∈ entry.handlers) :
    HandlerRegistry.register r mt h =
      (r, some (RegistryError.handlerAlreadyRegistered h.name)) := by
  unfold HandlerRegistry.register
  simp only [hl, if_pos hm]

lemma register_eq_of_some_notmem (r : HandlerRegistry) (mt : MessageType)
    (h : Handler) (entry : RegisteredHandlers)
    (hl : lookupName r.registry mt.name = some entry)
    (hm : h ∉ entry.handlers) :
    HandlerRegistry.register r mt h =
      (HandlerRegistry.mk
        (assignEntry r.registry mt.name
          (RegisteredHandlers.mk entry.messageType (entry.handlers ++ [h])))
        r.unhandledMessages, none) := by
  unfold HandlerRegistry.register
  simp only [hl, if_neg hm]

lemma register_ok_handlersFor (r : HandlerRegistry) (mt : MessageType)
    (h : Handler) (hok : (HandlerRegistry.register r mt h).2 = none) :
    handlersFor (HandlerRegistry.register r mt h).1 mt.name
      = handlersFor r mt.name ++ [h] := by
  cases hl : lookupName r.registry mt.name with
  | none =>
    rw [register_eq_of_lookup_none r mt h hl]
    unfold handlersFor
    rw [lookupName_assignEntry_self _ mt.name _ _
      (lookupName_append_self r.registry mt.name _ hl), hl]
    simp
  | some entry =>
    by_cases hm : h ∈ entry.handlers
    · rw [register_eq_of_mem r mt h entry hl hm] at hok
      cases hok
    · rw [register_eq_of_some_notmem r mt h entry hl hm]
      unfold handlersFor
      rw [lookupName_assignEntry_self _ mt.name _ _ hl, hl]

lemma register_mem_error (r : HandlerRegistry) (mt : MessageType)
    (h : Handler) (hm : h ∈ handlersFor r mt.name) :
    HandlerRegistry.register r mt h =
      (r, some (RegistryError.handlerAlreadyRegistered h.name)) := by
  cases hl : lookupName r.registry mt.name with
  | none => simp [handlersFor, hl] at hm
  | some entry =>
    have hm2 : h ∈ entry.handlers := by simpa [handlersFor, hl] using hm
    exact register_eq_of_mem r mt h entry hl hm2

lemma register_notmem_ok (r : HandlerRegistry) (mt : MessageType)
    (h : Handler) (hm : h ∉ handlersFor r mt.name) :
    (HandlerRegistry.register r mt h).2 = none := by
  cases hl : lookupName r.registry mt.name with
  | none => rw [register_eq_of_lookup_none r mt h hl]
  | some entry =>
    have hm2 : h ∉ entry.handlers := by simpa [handlersFor, hl] using hm
    rw [register_eq_of_some_notmem r mt h entry hl hm2]

/-! ## Lookup (`get`) lemmas -/

lemma get_of_none_of_mem (r : HandlerRegistry) (name : String)
    (hl : lookupName r.registry name = none)
    (hm : name ∈ r.unhandledMessages) :
    HandlerRegistry.get r name = ([], r, false) := by
  unfold HandlerRegistry.get
  simp only [hl, if_pos hm]

lemma get_of_none_of_notmem (r : HandlerRegistry) (name : String)
    (hl : lookupName r.registry name = none)
    (hm : name ∉ r.unhandledMessages) :
    HandlerRegistry.get r name =
      ([], HandlerRegistry.mk r.registry (r.unhandledMessages ++ [name]),
        true) := by
  unfold HandlerRegistry.get
  simp only [hl, if_neg hm]

lemma get_fst (r : HandlerRegistry) (name : String) :
    (HandlerRegistry.get r name).1 = handlersFor r name := by
  unfold HandlerRegistry.get handlersFor
  cases lookupName r.registry name with
  | none => by_cases hm : name ∈ r.unhandledMessages <;> simp [hm]
  | some entry => rfl

lemma getRepeat_of_none_of_mem (r : HandlerRegistry) (name : String)
    (n : Nat) (hl : lookupName r.registry name = none)
    (hm : name ∈ r.unhandledMessages) :
    getRepeat r name n = (r, 0) := by
  induction n with
  | zero => rfl
  | succ k ih => simp [getRepeat, get_of_none_of_mem r name hl hm, ih]

/-! ## Dispatcher-model lemmas -/

lemma runHandlers_trace (outcome : Handler → Bool) (hs : List Handler) :
    (runHandlers outcome hs).1 = hs := by
  induction hs with
  | nil => rfl
  | cons h rest ih => simp [runHandlers, ih]

lemma runHandlers_all (outcome : Handler → Bool) (hs : List Handler) :
    (runHandlers outcome hs).2 = hs.all outcome := by
  induction hs with
  | nil => rfl
  | cons h rest ih => simp [runHandlers, ih, List.all_cons]

lemma claimAll_length (ss : List (Option Nat)) (q : List Nat) (st : Nat) :
    (claimAll ss q st).1.length = ss.length := by
  induction ss generalizing q st with
  | nil => rfl
  | cons slot ss ih =>
    cases slot with
    | none =>
      cases q with
      | nil => simp [claimAll, ih]
      | cons m q2 => simp [claimAll, ih]
    | some m0 => simp [claimAll, ih]

/-! ## Witness inputs -/

/-- The `TestEvent` message class of the tests. -/
def mtTest : MessageType := MessageType.mk 0 "TestEvent"

/-- A first handler function instance. -/
def hTest : Handler := Handler.mk 0 "testHandler"

/-- A second, distinct handler function instance. -/
def hTestTwo : Handler := Handler.mk 1 "testHandlerTwo"

/-- The `$name` of `TestEvent`. -/
def testEventName : String := "TestEvent"

/-- The registry after registering `hTest` for `TestEvent`. -/
def regOne : HandlerRegistry :=
  (HandlerRegistry.register handlerRegistryInit mtTest hTest).1

/-- The registry after one `get` miss for `TestEvent` (the diagnostic fired
and the name is remembered). -/
def regAfterMiss : HandlerRegistry :=
  (HandlerRegistry.get handlerRegistryInit testEventName).2.1

/-- Handler outcome where every handler completes without raising. -/
def outcomeAllOk : Handler → Bool := fun _ => true

/-- Handler outcome where every handler raises. -/
def outcomeAllFail : Handler → Bool := fun _ => false

/-- Per-invocation outcome that fails the first delivery and succeeds on
redelivery. -/
def okSecondTry : Nat → Bool := fun i => decide (0 < i)

/-- A hook state with no listeners registered. -/
def hookNone : HookRegistrations := HookRegistrations.mk [] []

/-! ## Claims -/

/-- Claim C1: with the dispatcher's fixed pool of worker slots, the number
of in-flight handler executions never exceeds the slot count (the
configured concurrency budget N), and publishing or releasing never changes
the slot count; in the budget-2 scenario with three messages published
while every handler blocks, exactly 2 invocations are in flight after
publishing (started-count 2, one message still pending), and releasing one
in-flight handler starts the third (started-count 3) with the in-flight
count still at 2. -/
theorem C1_bounded_concurrency :
    (∀ s : PoolState, inFlight s ≤ s.slots.length) ∧
    (∀ s : PoolState, ∀ m : Nat,
      (poolPublish s m).slots.length = s.slots.length) ∧
    (∀ s : PoolState, ∀ i : Nat,
      (releaseSlot s i).slots.length = s.slots.length) ∧
    busAfterThree = PoolState.mk [some 1, some 2] [3] 2 ∧
    inFlight busAfterThree = 2 ∧
    releaseSlot busAfterThree 0 = PoolState.mk [some 3, some 2] [] 3 ∧
    inFlight (releaseSlot busAfterThree 0) = 2 := by
  refine ⟨fun s => List.countP_le_length _, fun s m => ?_, fun s i => ?_,
    by decide, by decide, by decide, by decide⟩
  · simp [poolPublish, settle, claimAll_length]
  · simp [releaseSlot, settle, claimAll_length]

/-- Claim C2: when every matched handler completes without raising, the
slot resolves the claimed message as delete — the transport depth decreases
by one and the message is not redelivered; when any handler raises (a
synchronous throw and a rejected asynchronous result are the same
`outcome = false`), the slot returns the message for retry; a handler that
fails on its first delivery and succeeds on the redelivery is invoked
twice and the message ends up deleted (queue empty). -/
theorem C2_delete_or_retry (outcome : Handler → Bool) (hs : List Handler)
    (m : Nat) (rest : List Nat) (ok : Nat → Bool) :
    ((∀ hh ∈ hs, outcome hh = true) →
      resolveMessage outcome hs = Resolved.deleteMsg) ∧
    ((∃ hh ∈ hs, outcome hh = false) →
      resolveMessage outcome hs = Resolved.retryMsg) ∧
    (applyResolved m rest Resolved.deleteMsg).depth + 1
      = (MemQueue.mk (m :: rest)).depth ∧
    (applyResolved m rest Resolved.deleteMsg).messages = rest ∧
    (applyResolved m rest Resolved.retryMsg).messages = rest ++ [m] ∧
    (ok 0 = false → ok 1 = true →
      processSteps ok 2 (MemQueue.mk [m], 0) = (MemQueue.mk [], 2)) := by
  refine ⟨?_, ?_, ?_, rfl, rfl, ?_⟩
  · intro hall
    simp [resolveMessage, runHandlers_all, List.all_eq_true.mpr hall]
  · rintro ⟨hh, hmem, hfalse⟩
    have hfa : hs.all outcome = false := by
      cases hab : hs.all outcome
      · rfl
      · exact absurd (List.all_eq_true.mp hab hh hmem) (by simp [hfalse])
    simp [resolveMessage, runHandlers_all, hfa]
  · simp [applyResolved, MemQueue.depth]
  · intro h0 h1
    simp [processSteps, h0, h1, applyResolved]

/-- Concrete run of claim C2's theorem: one handler that always succeeds
gives delete, one that always raises gives retry, and a handler failing
only its first delivery is invoked twice before the queue drains. -/
theorem C2_delete_or_retry_witness :
    resolveMessage outcomeAllOk [hTest] = Resolved.deleteMsg ∧
    resolveMessage outcomeAllFail [hTest] = Resolved.retryMsg ∧
    processSteps okSecondTry 2 (MemQueue.mk [7], 0) = (MemQueue.mk [], 2) :=
  ⟨(C2_delete_or_retry outcomeAllOk [hTest] 7 [] okSecondTry).1
      (fun _ _ => rfl),
    (C2_delete_or_retry outcomeAllFail [hTest] 7 [] okSecondTry).2.1
      ⟨hTest, by simp, rfl⟩,
    (C2_delete_or_retry outcomeAllFail [hTest] 7 [] okSecondTry).2.2.2.2.2
      (by decide) (by decide)⟩

/-- Claim C3: after a successful registration of a handler, registering the
identical (message type, handler) pair again returns the
`HandlerAlreadyRegistered` error at registration time and leaves the state
unchanged, while registering a different handler (not yet present) under
the same message type name succeeds and appends it. -/
theorem C3_duplicate_registration (r r' : HandlerRegistry) (mt : MessageType)
    (h h2 : Handler) (hreg : HandlerRegistry.register r mt h = (r', none)) :
    HandlerRegistry.register r' mt h
      = (r', some (RegistryError.handlerAlreadyRegistered h.name)) ∧
    (h2 ∉ handlersFor r' mt.name →
      (HandlerRegistry.register r' mt h2).2 = none ∧
      handlersFor (HandlerRegistry.register r' mt h2).1 mt.name
        = handlersFor r' mt.name ++ [h2]) := by
  have hok : (HandlerRegistry.register r mt h).2 = none := by rw [hreg]
  have happ : handlersFor r' mt.name = handlersFor r mt.name ++ [h] := by
    have t := register_ok_handlersFor r mt h hok
    rw [hreg] at t
    exact t
  constructor
  · exact register_mem_error r' mt h
      (by rw [happ]; exact List.mem_append_right _ (List.mem_singleton.mpr rfl))
  · intro hnm
    exact ⟨register_notmem_ok r' mt h2 hnm,
      register_ok_handlersFor r' mt h2 (register_notmem_ok r' mt h2 hnm)⟩

/-- Concrete run of claim C3's theorem on the `TestEvent` registry. -/
theorem C3_duplicate_registration_witness :
    HandlerRegistry.register handlerRegistryInit mtTest hTest
      = (regOne, none) ∧
    HandlerRegistry.register regOne mtTest hTest
      = (regOne, some (RegistryError.handlerAlreadyRegistered hTest.name)) ∧
    ((HandlerRegistry.register regOne mtTest hTestTwo).2 = none ∧
      handlersFor (HandlerRegistry.register regOne mtTest hTestTwo).1
          mtTest.name
        = handlersFor regOne mtTest.name ++ [hTestTwo]) :=
  ⟨by decide,
    (C3_duplicate_registration handlerRegistryInit regOne mtTest hTest
      hTestTwo (by decide)).1,
    (C3_duplicate_registration handlerRegistryInit regOne mtTest hTest
      hTestTwo (by decide)).2 (by decide)⟩

/-- Claim C4: for a message name with no registration entry, `get` returns
exactly the empty list (not an error), and over any positive number of
repeated lookups of that name the unhandled-message diagnostic is emitted
exactly once. -/
theorem C4_unhandled_once (r : HandlerRegistry) (name : String) (n : Nat)
    (hl : lookupName r.registry name = none)
    (hm : name ∉ r.unhandledMessages) (hn : 1 ≤ n) :
    (HandlerRegistry.get r name).1 = [] ∧
    (getRepeat r name n).2 = 1 := by
  obtain ⟨k, rfl⟩ : ∃ k, n = k + 1 :=
    ⟨n - 1, (Nat.succ_pred_eq_of_pos hn).symm⟩
  have hget := get_of_none_of_notmem r name hl hm
  refine ⟨by rw [hget], ?_⟩
  have hrec := getRepeat_of_none_of_mem
    (HandlerRegistry.mk r.registry (r.unhandledMessages ++ [name])) name k hl
    (List.mem_append_right _ (List.mem_singleton.mpr rfl))
  simp [getRepeat, hget, hrec]

/-- Concrete run of claim C4's theorem: three lookups of an unregistered
name on the fresh registry emit the diagnostic exactly once. -/
theorem C4_unhandled_once_witness :
    (HandlerRegistry.get handlerRegistryInit testEventName).1 = [] ∧
    (getRepeat handlerRegistryInit testEventName 3).2 = 1 :=
  C4_unhandled_once handlerRegistryInit testEventName 3 rfl (by decide)
    (by decide)

/-- Claim C5 is false on the code: `reset()` clears only `this.registry`,
not the `unhandledMessages` memory.  Concretely: the first lookup of
`TestEvent` on the fresh registry emits the diagnostic; after `reset()` the
name still has no registered handlers, yet the lookup does not emit the
diagnostic again. -/
theorem C5_counterexample :
    (HandlerRegistry.get handlerRegistryInit testEventName).2.2 = true ∧
    lookupName (HandlerRegistry.reset regAfterMiss).registry testEventName
      = none ∧
    (HandlerRegistry.get (HandlerRegistry.reset regAfterMiss)
      testEventName).2.2 = false := by
  decide

/-- Claim C5 (amended): `reset()` clears the registrations but keeps the
unhandled-name memory, so after `reset()` a `get` for a name that had
already triggered the one-time diagnostic returns the empty list without
emitting the diagnostic again. -/
theorem C5_reset_keeps_unhandled_memory (r : HandlerRegistry) (name : String)
    (hm : name ∈ r.unhandledMessages) :
    (HandlerRegistry.reset r).unhandledMessages = r.unhandledMessages ∧
    (HandlerRegistry.get (HandlerRegistry.reset r) name).1 = [] ∧
    (HandlerRegistry.get (HandlerRegistry.reset r) name).2.2 = false := by
  refine ⟨rfl, ?_, ?_⟩ <;>
    rw [get_of_none_of_mem (HandlerRegistry.reset r) name rfl hm]

/-- Concrete run of the amended claim C5 on the post-miss registry. -/
theorem C5_reset_keeps_unhandled_memory_witness :
    testEventName ∈ regAfterMiss.unhandledMessages ∧
    ((HandlerRegistry.reset regAfterMiss).unhandledMessages
        = regAfterMiss.unhandledMessages ∧
      (HandlerRegistry.get (HandlerRegistry.reset regAfterMiss)
        testEventName).1 = [] ∧
      (HandlerRegistry.get (HandlerRegistry.reset regAfterMiss)
        testEventName).2.2 = false) :=
  ⟨by decide,
    C5_reset_keeps_unhandled_memory regAfterMiss testEventName (by decide)⟩

/-- Claim C6: after `reset()`, a `get` for a previously-registered name
returns the empty list and `getMessageNames()` returns the empty set. -/
theorem C6_reset_clears_registrations (r : HandlerRegistry) (name : String)
    (hmem : name ∈ HandlerRegistry.getMessageNames r) :
    (HandlerRegistry.get (HandlerRegistry.reset r) name).1 = [] ∧
    HandlerRegistry.getMessageNames (HandlerRegistry.reset r) = [] := by
  refine ⟨?_, rfl⟩
  rw [get_fst]
  rfl

/-- Concrete run of claim C6's theorem after registering `TestEvent`. -/
theorem C6_reset_clears_registrations_witness :
    testEventName ∈ HandlerRegistry.getMessageNames regOne ∧
    ((HandlerRegistry.get (HandlerRegistry.reset regOne) testEventName).1
        = [] ∧
      HandlerRegistry.getMessageNames (HandlerRegistry.reset regOne) = []) :=
  ⟨by decide, C6_reset_clears_registrations regOne testEventName (by decide)⟩

/-- Claim C7: `start()` succeeds only from Stopped and fails from Starting,
Started and Stopping; `stop()` succeeds only from Started and fails from
Stopped (and the other non-Started states). -/
theorem C7_lifecycle_guards :
    startBus BusState.stopped = Except.ok BusState.started ∧
    startBus BusState.starting = Except.error startErrorMsg ∧
    startBus BusState.started = Except.error startErrorMsg ∧
    startBus BusState.stopping = Except.error startErrorMsg ∧
    stopBus BusState.started = Except.ok BusState.stopped ∧
    stopBus BusState.stopped = Except.error stopErrorMsg ∧
    stopBus BusState.starting = Except.error stopErrorMsg ∧
    stopBus BusState.stopping = Except.error stopErrorMsg :=
  ⟨rfl, rfl, rfl, rfl, rfl, rfl, rfl, rfl⟩

/-- Claim C8: a listener registered for `send` fires exactly once per
`send()` call, and after removal with `off` it does not fire on a
subsequent call; `publish` listeners behave symmetrically. -/
theorem C8_hook_fire_once (hk : HookRegistrations) (l : Nat)
    (hs : l ∉ hk.sendListeners) (hp : l ∉ hk.publishListeners) :
    (fireSend (hookOn HookEvent.send hk l)).count l = 1 ∧
    (fireSend (hookOff HookEvent.send (hookOn HookEvent.send hk l) l)).count l
      = 0 ∧
    (firePublish (hookOn HookEvent.publish hk l)).count l = 1 ∧
    (firePublish (hookOff HookEvent.publish
      (hookOn HookEvent.publish hk l) l)).count l = 0 := by
  refine ⟨?_, ?_, ?_, ?_⟩
  · simp [fireSend, hookOn, List.count_append, List.count_eq_zero.mpr hs]
  · simp [fireSend, hookOn, hookOff, List.count_eq_zero, List.mem_filter]
  · simp [firePublish, hookOn, List.count_append, List.count_eq_zero.mpr hp]
  · simp [firePublish, hookOn, hookOff, List.count_eq_zero, List.mem_filter]

/-- Concrete run of claim C8's theorem from an empty hook state. -/
theorem C8_hook_fire_once_witness :
    5 ∉ hookNone.sendListeners ∧ 5 ∉ hookNone.publishListeners ∧
    ((fireSend (hookOn HookEvent.send hookNone 5)).count 5 = 1 ∧
      (fireSend (hookOff HookEvent.send
        (hookOn HookEvent.send hookNone 5) 5)).count 5 = 0 ∧
      (firePublish (hookOn HookEvent.publish hookNone 5)).count 5 = 1 ∧
      (firePublish (hookOff HookEvent.publish
        (hookOn HookEvent.publish hookNone 5) 5)).count 5 = 0) :=
  ⟨by decide, by decide, C8_hook_fire_once hookNone 5 (by decide) (by decide)⟩

/-- Claim C9: a successful registration appends the handler to the end of
the ordered list for that message name, `get` returns that list, and the
dispatcher's invocation trace over the returned list is exactly that list
in order. -/
theorem C9_registration_order (r r' : HandlerRegistry) (mt : MessageType)
    (h : Handler) (outcome : Handler → Bool)
    (hreg : HandlerRegistry.register r mt h = (r', none)) :
    (HandlerRegistry.get r' mt.name).1 = handlersFor r mt.name ++ [h] ∧
    (runHandlers outcome (HandlerRegistry.get r' mt.name).1).1
      = handlersFor r mt.name ++ [h] := by
  have hok : (HandlerRegistry.register r mt h).2 = none := by rw [hreg]
  have happ : handlersFor r' mt.name = handlersFor r mt.name ++ [h] := by
    have t := register_ok_handlersFor r mt h hok
    rw [hreg] at t
    exact t
  exact ⟨by rw [get_fst, happ], by rw [runHandlers_trace, get_fst, happ]⟩

/-- Concrete run of claim C9's theorem for the first `TestEvent`
registration. -/
theorem C9_registration_order_witness :
    HandlerRegistry.register handlerRegistryInit mtTest hTest
      = (regOne, none) ∧
    ((HandlerRegistry.get regOne mtTest.name).1
        = handlersFor handlerRegistryInit mtTest.name ++ [hTest] ∧
      (runHandlers outcomeAllOk (HandlerRegistry.get regOne mtTest.name).1).1
        = handlersFor handlerRegistryInit mtTest.name ++ [hTest]) :=
  ⟨by decide,
    C9_registration_order handlerRegistryInit regOne mtTest hTest outcomeAllOk
      (by decide)⟩

/-- Claim C10: whenever `register` returns the `HandlerAlreadyRegistered`
error, the registry state is exactly what it was before the call — the
handler list for that name, the registered message names and the
unhandled-name memory are all unchanged (the duplicate check can only trip
on a pre-existing entry, so the create-if-absent step never leaves a new
empty entry behind). -/
theorem C10_register_atomic_on_failure (r r' : HandlerRegistry)
    (mt : MessageType) (h : Handler) (e : RegistryError)
    (hfail : HandlerRegistry.register r mt h = (r', some e)) :
    r' = r ∧
    handlersFor r' mt.name = handlersFor r mt.name ∧
    HandlerRegistry.getMessageNames r'
      = HandlerRegistry.getMessageNames r ∧
    r'.unhandledMessages = r.unhandledMessages := by
  have hr : r' = r := by
    cases hl : lookupName r.registry mt.name with
    | none =>
      rw [register_eq_of_lookup_none r mt h hl] at hfail
      simp at hfail
    | some entry =>
      by_cases hm : h ∈ entry.handlers
      · rw [register_eq_of_mem r mt h entry hl hm] at hfail
        injection hfail with h1 h2
        exact h1.symm
      · rw [register_eq_of_some_notmem r mt h entry hl hm] at hfail
        simp at hfail
  subst hr
  exact ⟨rfl, rfl, rfl, rfl⟩

/-- Concrete run of claim C10's theorem on the duplicate `TestEvent`
registration. -/
theorem C10_register_atomic_on_failure_witness :
    HandlerRegistry.register regOne mtTest hTest
      = (regOne, some (RegistryError.handlerAlreadyRegistered hTest.name)) ∧
    (regOne = regOne ∧
      handlersFor regOne mtTest.name = handlersFor regOne mtTest.name ∧
      HandlerRegistry.getMessageNames regOne
        = HandlerRegistry.getMessageNames regOne ∧
      regOne.unhandledMessages = regOne.unhandledMessages) :=
  ⟨by decide,
    C10_register_atomic_on_failure regOne regOne mtTest hTest
      (RegistryError.handlerAlreadyRegistered hTest.name) (by decide)⟩
